import Mathlib

/-!
Verification of the Specification Resolution & Report Assembly Engine of
the Generator Specs tool (`Maven_Generator_Specs.py`).

The Python source is shallowly embedded below: the static catalog
dictionaries, the load ledger held on `GeneratorSpecsApp` (`self.loads`,
`self.load_id`) together with its `_add_load`/`_remove_load` mutations,
the usage classification of `_build_load_tab`, and the pure data flow of
`_save_report` (report payload assembly, filename sanitization, and the
record handed to `DatabaseManager.save_report`).

Python `int` values are modelled as `ℤ`, strings as `String` (or
`List Char` where character-level processing happens), and the floating
point `usage` percentage as `ℚ` (the division is exact at every boundary
the claims touch). GUI plumbing, sqlite and reportlab are outside the
embedding; their outcomes (render success, serialized JSON, timestamps)
enter as explicit parameters.
-/

namespace GeneratorSpecs

/-- Mirror of the `WiringSpecs` dataclass (source lines 144-154): nine
string fields in declaration order. -/
structure WiringSpecs where
  voltage : String
  amperage : String
  wire_gauge : String
  conduit_size : String
  breaker_size : String
  ground_wire : String
  neutral_wire : String
  receptacle : String
  notes : String
  deriving DecidableEq, Repr

/-- Mirror of the `SINGLE_PHASE_SPECS` dict (source lines 176-192): a
finite map from power rating to `WiringSpecs`, written as an if-chain on
the five keys; `dict.get` on a missing key yields `none`. -/
def SINGLE_PHASE_SPECS (rating : ℤ) : Option WiringSpecs :=
  if rating = 30 then
    some ⟨"240V", "125A", "1/0 AWG Copper", "1.5\" (1-1/2 inch)", "150A",
          "6 AWG Copper", "1/0 AWG", "Hardwired dedicated circuit",
          "Requires isolated ground. Dedicated circuit mandatory per NFPA 99. Must be on emergency power system per healthcare facility code."⟩
  else if rating = 32 then
    some ⟨"240V", "133A", "1/0 AWG Copper", "1.5\" (1-1/2 inch)", "150A",
          "6 AWG Copper", "1/0 AWG", "Hardwired dedicated circuit",
          "Isolated ground required. Room requires RF shielding. Emergency power backup mandatory."⟩
  else if rating = 40 then
    some ⟨"240V", "167A", "2/0 AWG Copper", "2\" (2 inch)", "200A",
          "4 AWG Copper", "2/0 AWG", "Hardwired dedicated circuit",
          "High-power imaging. Requires 200A+ service. Isolated ground and RF shielding mandatory."⟩
  else if rating = 50 then
    some ⟨"240V", "208A", "4/0 AWG Copper", "2.5\" (2-1/2 inch)", "250A",
          "4 AWG Copper", "4/0 AWG", "Hardwired dedicated circuit",
          "CT/MRI class system. Requires dedicated transformer. Harmonic filtering recommended."⟩
  else if rating = 60 then
    some ⟨"240V", "250A", "250 MCM Copper", "3\" (3 inch)", "300A",
          "2 AWG Copper", "250 MCM", "Hardwired dedicated circuit",
          "High-field MRI or advanced CT. Requires dedicated service entrance. Power quality monitoring essential."⟩
  else none

/-- Mirror of the `THREE_PHASE_SPECS` dict (source lines 194-220). -/
def THREE_PHASE_SPECS (rating : ℤ) : Option WiringSpecs :=
  if rating = 30 then
    some ⟨"208V/480V", "83A @ 208V / 36A @ 480V",
          "4 AWG Copper (208V) / 8 AWG Copper (480V)", "1.25\" (1-1/4 inch)",
          "100A (208V) / 50A (480V)", "8 AWG Copper", "4 AWG (if required)",
          "Hardwired 4-wire connection",
          "Three-phase medical imaging. Isolated ground required. Phase balance critical for image quality."⟩
  else if rating = 32 then
    some ⟨"208V/480V", "89A @ 208V / 39A @ 480V",
          "3 AWG Copper (208V) / 8 AWG Copper (480V)", "1.25\" (1-1/4 inch)",
          "100A (208V) / 50A (480V)", "8 AWG Copper", "3 AWG (if required)",
          "Hardwired 4-wire connection",
          "Advanced imaging equipment. Voltage regulation ±5% required. RF shielding mandatory."⟩
  else if rating = 40 then
    some ⟨"208V/480V", "111A @ 208V / 48A @ 480V",
          "1 AWG Copper (208V) / 6 AWG Copper (480V)", "1.5\" (1-1/2 inch)",
          "125A (208V) / 60A (480V)", "6 AWG Copper", "1 AWG (if required)",
          "Hardwired 4-wire connection",
          "CT scanner class equipment. Power quality monitoring required. THD must be <5%."⟩
  else if rating = 50 then
    some ⟨"208V/480V", "139A @ 208V / 60A @ 480V",
          "1/0 AWG Copper (208V) / 4 AWG Copper (480V)", "2\" (2 inch)",
          "175A (208V) / 80A (480V)", "6 AWG Copper", "1/0 AWG (if required)",
          "Hardwired 4-wire connection",
          "High-power CT/MRI system. Dedicated transformer recommended. Active harmonic filter may be required."⟩
  else if rating = 60 then
    some ⟨"208V/480V", "167A @ 208V / 72A @ 480V",
          "2/0 AWG Copper (208V) / 3 AWG Copper (480V)", "2\" (2 inch)",
          "200A (208V) / 100A (480V)", "4 AWG Copper", "2/0 AWG (if required)",
          "Hardwired 4-wire connection",
          "Premium imaging suite. Dedicated electrical room required. K-rated transformer mandatory."⟩
  else none

/-- The two phase types: `selected_phase` holds `"single"` or `"three"`. -/
inductive PhaseType where
  | single
  | three
  deriving DecidableEq, Repr

/-- String key used for `selected_phase` and in the report filename. -/
def PhaseType.key : PhaseType → String
  | .single => "single"
  | .three => "three"

/-- Catalog lookup, mirroring `_update_specs` (source lines 931-935):
`SINGLE_PHASE_SPECS.get(power)` when the phase is single, otherwise
`THREE_PHASE_SPECS.get(power)`. -/
def lookup (phase : PhaseType) (rating : ℤ) : Option WiringSpecs :=
  match phase with
  | .single => SINGLE_PHASE_SPECS rating
  | .three => THREE_PHASE_SPECS rating

/-- The fixed rating domain, `POWER_RATINGS = [30, 32, 40, 50, 60]`
(source line 222). -/
def POWER_RATINGS : List ℤ := [30, 32, 40, 50, 60]

/-- One entry of `self.loads`: the dict `{"id", "name", "watts",
"quantity"}` built in `_add_load` and in `DEFAULT_LOADS`. -/
structure Load where
  id : ℤ
  name : String
  watts : ℤ
  quantity : ℤ
  deriving DecidableEq, Repr

/-- Mirror of `DEFAULT_LOADS` (source lines 224-228). -/
def DEFAULT_LOADS : List Load :=
  [⟨1, "X-Ray Tube", 15000, 1⟩,
   ⟨2, "Image Processor", 3000, 1⟩,
   ⟨3, "Room HVAC", 2000, 1⟩]

/-- Ledger state held on the app: `self.loads` and the id counter
`self.load_id` (source lines 663-664). -/
structure LedgerState where
  loads : List Load
  load_id : ℤ
  deriving DecidableEq, Repr

/-- Initial ledger: `self.loads = [dict(d) for d in DEFAULT_LOADS]` and
`self.load_id = 4` (source lines 663-664). -/
def initState : LedgerState := ⟨DEFAULT_LOADS, 4⟩

/-- A wattage or quantity text field of the Add Load dialog, as consumed
by `int(var.get() or default)`: either empty (Python `or` substitutes the
default), a string parsing to an integer, or text on which `int()` raises
`ValueError`. -/
inductive FieldInput where
  | empty
  | intVal (n : ℤ)
  | malformed
  deriving DecidableEq, Repr

/-- Evaluation of `int(var.get() or dflt)`: `none` when `int()` raises. -/
def readField (inp : FieldInput) (dflt : ℤ) : Option ℤ :=
  match inp with
  | .empty => some dflt
  | .intVal n => some n
  | .malformed => none

/-- Mirror of `submit` inside `_add_load` (source lines 1171-1183): on
success the new dict `{"id": self.load_id, "name": name or "New Load",
"watts": int(watts or 0), "quantity": int(qty or 1)}` is appended and the
counter incremented; a `ValueError` from either `int()` is swallowed by
`except ValueError: pass`, leaving the state unchanged. -/
def submit (st : LedgerState) (name : String)
    (wattsInp qtyInp : FieldInput) : LedgerState :=
  match readField wattsInp 0, readField qtyInp 1 with
  | some w, some q =>
      ⟨st.loads ++ [⟨st.load_id, (if name = "" then "New Load" else name), w, q⟩],
       st.load_id + 1⟩
  | _, _ => st

/-- Mirror of `_remove_load` (source lines 1189-1191):
`self.loads = [l for l in self.loads if l["id"] != load_id]`. -/
def removeLoad (st : LedgerState) (lid : ℤ) : LedgerState :=
  ⟨st.loads.filter (fun l => l.id ≠ lid), st.load_id⟩

/-- Aggregate demand, `sum(l["watts"] * l["quantity"] for l in
self.loads)` (source line 1103). -/
def aggregateWatts (loads : List Load) : ℤ :=
  (loads.map (fun l => l.watts * l.quantity)).sum

/-- Usage percentage of `_build_load_tab` (source line 1106):
`(total_watts / (capacity * 1000)) * 100`, as an exact rational. -/
def usagePercent (totalWatts capacity : ℤ) : ℚ :=
  ((totalWatts : ℚ) / ((capacity : ℚ) * 1000)) * 100

/-- The three status banners of `_build_load_tab`. -/
inductive LoadStatus where
  | safe
  | highLoad
  | overloaded
  deriving DecidableEq, Repr

/-- Classification of `_build_load_tab` (source lines 1108-1113):
`if usage > 100: OVERLOADED / elif usage > 80: HIGH LOAD / else: SAFE`. -/
def loadStatus (totalWatts capacity : ℤ) : LoadStatus :=
  if usagePercent totalWatts capacity > 100 then .overloaded
  else if usagePercent totalWatts capacity > 80 then .highLoad
  else .safe

/-- One user action on the ledger: a successful return from the Add Load
dialog (`submit`) or a click of a row's remove button (`_remove_load`). -/
inductive LedgerStep : LedgerState → LedgerState → Prop where
  | add (st : LedgerState) (name : String) (w q : FieldInput) :
      LedgerStep st (submit st name w q)
  | remove (st : LedgerState) (lid : ℤ) :
      LedgerStep st (removeLoad st lid)

/-- Ledger states reachable from the freshly initialized app by any
sequence of add and remove actions. -/
inductive ReachableLedger : LedgerState → Prop where
  | init : ReachableLedger initState
  | step {st st' : LedgerState} :
      ReachableLedger st → LedgerStep st st' → ReachableLedger st'

/-- Structural invariant of the ledger: the id counter is positive, the
ids in the sequence are pairwise distinct, and every id is positive and
strictly below the counter. -/
def LedgerInv (st : LedgerState) : Prop :=
  0 < st.load_id ∧ (st.loads.map Load.id).Nodup ∧
    ∀ l ∈ st.loads, 0 < l.id ∧ l.id < st.load_id

/-- Mirror of the project-name normalization in `_save_report` (source
line 1342): `self.project_info["project_name"].get() or
"Untitled Project"` — Python `or` substitutes the placeholder exactly
when the entered string is empty (falsy). -/
def payloadProjectName (entered : String) : String :=
  if entered = "" then "Untitled Project" else entered

/-- Characters kept by the filename sanitizer (source line 1365):
`c.isalnum() or c in ' -_'` (alphanumeric modelled over the ASCII
range). -/
def keepChar (c : Char) : Bool :=
  c.isAlphanum || c = ' ' || c = '-' || c = '_'

/-- Python `str.strip()` on the filtered name: after the filter the only
whitespace left is the space character, so stripping removes leading and
trailing spaces. -/
def stripSpaces (l : List Char) : List Char :=
  ((l.dropWhile (fun c => c = ' ')).reverse.dropWhile (fun c => c = ' ')).reverse

/-- The `replace(' ', '_')` step of source line 1366, per character. -/
def spaceToUnderscore (c : Char) : Char :=
  if c = ' ' then '_' else c

/-- Mirror of the `safe_name` computation (source lines 1365-1366):
keep alphanumerics, space, hyphen and underscore; strip; truncate to the
first 40 characters; then substitute spaces with underscores. -/
def sanitizeName (projectName : String) : List Char :=
  ((stripSpaces (projectName.data.filter keepChar)).take 40).map spaceToUnderscore

/-- Mirror of the filename f-string (source lines 1367-1368):
`f"{safe_name}_{phase_type}_{power_rating}kW_{timestamp}.pdf"`. -/
def reportFilename (projectName : String) (phase : PhaseType) (power : ℤ)
    (timestamp : String) : String :=
  String.mk (sanitizeName projectName) ++ "_" ++ phase.key ++ "_" ++
    toString power ++ "kW_" ++ timestamp ++ ".pdf"

/-- Mirror of the `SavedReport` dataclass (source lines 157-173). -/
structure SavedReport where
  id : String
  project_name : String
  phase_type : String
  power_rating : ℤ
  status : String
  created_at : String
  updated_at : String
  project_address : String
  contractor : String
  electrician : String
  license_number : String
  custom_notes : String
  checklist_data : String
  load_data : String
  pdf_path : String
  deriving DecidableEq, Repr

/-- Default of the `status` column in the sqlite schema,
`status TEXT DEFAULT 'draft'` (`_init_database`, source line 293). -/
def schemaDefaultStatus : String := "draft"

/-- The app state read by `_save_report`: the resolved specification,
the current selection, the project-info entry fields and the ledger. -/
structure SaveCtx where
  current_specs : Option WiringSpecs
  selected_phase : PhaseType
  selected_power : ℤ
  project_name : String
  project_address : String
  contractor : String
  electrician : String
  license_number : String
  loads : List Load

/-- Mirror of the save flow of `_save_report` (source lines 1333-1395),
returning the record passed to `DatabaseManager.save_report`, or `none`
when nothing is persisted. External effects enter as parameters: the md5
digest `reportId`, the filename `timestamp` and iso timestamp `nowIso`
from `datetime.now()`, the `json.dumps` results for the checklist and
loads, and the outcome `renderOk` of `PDFReportGenerator.generate`. The
flow returns early — persisting nothing — when no configuration is
selected or when the renderer reports failure. -/
def saveReport (ctx : SaveCtx)
    (reportId timestamp nowIso checklistJson loadJson reportsDir : String)
    (renderOk : Bool) : Option SavedReport :=
  match ctx.current_specs with
  | none => none
  | some _ =>
    let pname := payloadProjectName ctx.project_name
    let path := reportsDir ++ "/" ++
      reportFilename pname ctx.selected_phase ctx.selected_power timestamp
    if renderOk then
      some { id := reportId
             project_name := pname
             phase_type := ctx.selected_phase.key
             power_rating := ctx.selected_power
             status := "completed"
             created_at := nowIso
             updated_at := nowIso
             project_address := ctx.project_address
             contractor := ctx.contractor
             electrician := ctx.electrician
             license_number := ctx.license_number
             custom_notes := ""
             checklist_data := checklistJson
             load_data := loadJson
             pdf_path := path }
    else none

/-- The freshly initialized ledger satisfies the structural invariant. -/
lemma ledgerInv_init : LedgerInv initState := by
  refine ⟨by decide, by decide, by decide⟩

/-- A successful add appends the new entry and increments the counter. -/
lemma submit_intVal (st : LedgerState) (name : String) (w q : ℤ) :
    submit st name (.intVal w) (.intVal q) =
      ⟨st.loads ++ [⟨st.load_id, (if name = "" then "New Load" else name), w, q⟩],
       st.load_id + 1⟩ := rfl

/-- Every ledger action preserves the structural invariant. -/
lemma ledgerInv_step {st st' : LedgerState} (h : LedgerInv st)
    (hs : LedgerStep st st') : LedgerInv st' := by
  obtain ⟨hpos, hnd, hbound⟩ := h
  cases hs with
  | add name w q =>
    rcases hw : readField w 0 with _ | wv <;> rcases hq : readField q 1 with _ | qv <;>
      simp only [submit, hw, hq]
    · exact ⟨hpos, hnd, hbound⟩
    · exact ⟨hpos, hnd, hbound⟩
    · exact ⟨hpos, hnd, hbound⟩
    · refine ⟨?_, ?_, ?_⟩ <;> dsimp only
      · linarith
      · rw [List.map_append, List.nodup_append]
        refine ⟨hnd, List.nodup_singleton _, ?_⟩
        intro a ha hb
        simp only [List.map_cons, List.map_nil, List.mem_singleton] at hb
        obtain ⟨l, hl, rfl⟩ := List.mem_map.mp ha
        exact absurd hb (by have := (hbound l hl).2; omega)
      · intro l hl
        rcases List.mem_append.mp hl with hmem | hmem
        · have := hbound l hmem
          exact ⟨this.1, by omega⟩
        · simp only [List.mem_singleton] at hmem
          subst hmem
          dsimp only
          exact ⟨hpos, by omega⟩
  | remove lid =>
    refine ⟨hpos, ?_, ?_⟩
    · exact hnd.sublist ((List.filter_sublist _).map _)
    · intro l hl
      exact hbound l (List.mem_of_mem_filter hl)

/-- Every reachable ledger state satisfies the structural invariant. -/
lemma reachable_ledgerInv {st : LedgerState} (h : ReachableLedger st) :
    LedgerInv st := by
  induction h with
  | init => exact ledgerInv_init
  | step _ hs ih => exact ledgerInv_step ih hs

/-- The id counter never decreases along a ledger action. -/
lemma ledgerStep_load_id_mono {st st' : LedgerState} (hs : LedgerStep st st') :
    st.load_id ≤ st'.load_id := by
  cases hs with
  | add name w q =>
    rcases hw : readField w 0 with _ | wv <;> rcases hq : readField q 1 with _ | qv <;>
      simp only [submit, hw, hq] <;> omega
  | remove lid => exact le_refl _

/-- General band rule of the classifier: each status is equivalent to its
usage band, with the strict `>` boundaries of the source. -/
lemma loadStatus_bands (agg capacity : ℤ) :
    (loadStatus agg capacity = .safe ↔ usagePercent agg capacity ≤ 80)
    ∧ (loadStatus agg capacity = .highLoad ↔
        80 < usagePercent agg capacity ∧ usagePercent agg capacity ≤ 100)
    ∧ (loadStatus agg capacity = .overloaded ↔ 100 < usagePercent agg capacity) := by
  unfold loadStatus
  split_ifs with h1 h2
  · exact ⟨iff_of_false (by simp) (not_le.mpr (by linarith)),
           iff_of_false (by simp) (fun hc => absurd hc.2 (not_le.mpr h1)),
           iff_of_true rfl h1⟩
  · exact ⟨iff_of_false (by simp) (not_le.mpr h2),
           iff_of_true rfl ⟨h2, not_lt.mp h1⟩,
           iff_of_false (by simp) h1⟩
  · exact ⟨iff_of_true rfl (not_lt.mp h2),
           iff_of_false (by simp) (fun hc => h2 hc.1),
           iff_of_false (by simp) h1⟩

/-- Stripping spaces yields a sublist of the original character list. -/
lemma stripSpaces_sublist (l : List Char) : List.Sublist (stripSpaces l) l := by
  unfold stripSpaces
  have h1 : List.Sublist (l.dropWhile (fun c => c = ' ')) l := List.dropWhile_sublist _
  have h2 : List.Sublist
      ((l.dropWhile (fun c => c = ' ')).reverse.dropWhile (fun c => c = ' '))
      (l.dropWhile (fun c => c = ' ')).reverse := List.dropWhile_sublist _
  have h3 := h2.reverse
  rw [List.reverse_reverse] at h3
  exact h3.trans h1

/-- A filter by an id that no entry carries keeps every entry. -/
lemma filter_ne_id_eq_self (loads : List Load) (lid : ℤ)
    (h : ∀ l ∈ loads, l.id ≠ lid) :
    loads.filter (fun l => l.id ≠ lid) = loads :=
  List.filter_eq_self.mpr (fun a ha => by simpa using h a ha)

/-- Concrete save context for evaluating the save flow end to end. -/
def sampleCtx : SaveCtx :=
  ⟨lookup PhaseType.single 30, PhaseType.single, 30, "Clinic", "", "", "", "",
   DEFAULT_LOADS⟩

/-- C1: with capacity 30 kW (30000 W), an aggregate of 24000 W is Safe,
24001 W is HighLoad, exactly 30000 W (100%) is HighLoad rather than
Overloaded, 30001 W is Overloaded; and for every ledger, usage at most 80
is Safe, over 80 up to and including 100 is HighLoad, and over 100 is
Overloaded (upper-inclusive boundaries). -/
theorem c1_usage_band_classification :
    ∀ loads : List Load,
      loadStatus 24000 30 = LoadStatus.safe
      ∧ loadStatus 24001 30 = LoadStatus.highLoad
      ∧ loadStatus 30000 30 = LoadStatus.highLoad
      ∧ loadStatus 30001 30 = LoadStatus.overloaded
      ∧ (loadStatus (aggregateWatts loads) 30 = LoadStatus.safe ↔
          usagePercent (aggregateWatts loads) 30 ≤ 80)
      ∧ (loadStatus (aggregateWatts loads) 30 = LoadStatus.highLoad ↔
          80 < usagePercent (aggregateWatts loads) 30
            ∧ usagePercent (aggregateWatts loads) 30 ≤ 100)
      ∧ (loadStatus (aggregateWatts loads) 30 = LoadStatus.overloaded ↔
          100 < usagePercent (aggregateWatts loads) 30) := by
  intro loads
  obtain ⟨hs, hh, ho⟩ := loadStatus_bands (aggregateWatts loads) 30
  refine ⟨?_, ?_, ?_, ?_, hs, hh, ho⟩ <;>
    (unfold loadStatus usagePercent; norm_num)

/-- C2: for every phase and every rating in the fixed domain
{30, 32, 40, 50, 60} the catalog lookup returns a specification, repeated
lookups agree, and for every rating outside the domain the lookup yields
`none` (no default, no interpolation). -/
theorem c2_catalog_lookup_domain :
    ∀ (p : PhaseType) (r : ℤ),
      (r ∈ POWER_RATINGS → (lookup p r).isSome = true)
      ∧ (r ∉ POWER_RATINGS → lookup p r = none)
      ∧ lookup p r = lookup p r := by
  intro p r
  refine ⟨?_, ?_, rfl⟩
  · intro hr
    fin_cases hr <;> cases p <;> rfl
  · intro hr
    simp only [POWER_RATINGS, List.mem_cons, List.not_mem_nil, or_false, not_or] at hr
    obtain ⟨h30, h32, h40, h50, h60⟩ := hr
    cases p <;>
      simp only [lookup, SINGLE_PHASE_SPECS, THREE_PHASE_SPECS,
        if_neg h30, if_neg h32, if_neg h40, if_neg h50, if_neg h60]

/-- Witness for C2: an in-domain pair resolves while the out-of-domain
ratings 33 (single) and 45 (three) fail. -/
theorem c2_catalog_lookup_domain_witness :
    (lookup PhaseType.single 30).isSome = true
    ∧ lookup PhaseType.single 33 = none
    ∧ lookup PhaseType.three 45 = none :=
  ⟨(c2_catalog_lookup_domain PhaseType.single 30).1 (by decide),
   (c2_catalog_lookup_domain PhaseType.single 33).2.1 (by decide),
   (c2_catalog_lookup_domain PhaseType.three 45).2.1 (by decide)⟩

/-- C3: the Three-phase / 50 kW specification carries the stated voltage,
amperage, hot wire gauge and breaker size, and with the default load seed
(15000 + 3000 + 2000 = 20000 W) at 50 kW capacity the usage is 40% and
the classification is Safe. -/
theorem c3_three_phase_50kw_scenario :
    (lookup PhaseType.three 50).map WiringSpecs.voltage = some "208V/480V"
    ∧ (lookup PhaseType.three 50).map WiringSpecs.amperage
        = some "139A @ 208V / 60A @ 480V"
    ∧ (lookup PhaseType.three 50).map WiringSpecs.wire_gauge
        = some "1/0 AWG Copper (208V) / 4 AWG Copper (480V)"
    ∧ (lookup PhaseType.three 50).map WiringSpecs.breaker_size
        = some "175A (208V) / 80A (480V)"
    ∧ aggregateWatts DEFAULT_LOADS = 20000
    ∧ usagePercent (aggregateWatts DEFAULT_LOADS) 50 = 40
    ∧ loadStatus (aggregateWatts DEFAULT_LOADS) 50 = LoadStatus.safe := by
  have hagg : aggregateWatts DEFAULT_LOADS = 20000 := by decide
  refine ⟨by decide, by decide, by decide, by decide, hagg, ?_, ?_⟩
  · rw [hagg]
    unfold usagePercent
    norm_num
  · rw [hagg]
    unfold loadStatus usagePercent
    norm_num

/-- Counterexample to C4: submitting a load with wattage -100 and
quantity 1 does not fail — the negative-wattage load is appended to the
ledger, so the add neither rejects it nor leaves the ledger unchanged. -/
theorem c4_negative_wattage_counterexample :
    (submit initState "Test" (FieldInput.intVal (-100)) (FieldInput.intVal 1)).loads
      = initState.loads ++ [⟨4, "Test", -100, 1⟩]
    ∧ (submit initState "Test" (FieldInput.intVal (-100)) (FieldInput.intVal 1)).loads
      ≠ initState.loads :=
  ⟨rfl, by decide⟩

/-- C4 amended: the add dialog rejects only input on which `int()` raises
`ValueError`, leaving the ledger unchanged; it performs no range
validation — any integer wattage (negative included) and any integer
quantity (non-positive included) are appended — and empty fields are
silently coerced to the defaults 0 (wattage) and 1 (quantity). -/
theorem c4_add_rejects_only_parse_failures :
    ∀ (st : LedgerState) (name : String) (inp : FieldInput) (w q : ℤ),
      submit st name FieldInput.malformed inp = st
      ∧ submit st name inp FieldInput.malformed = st
      ∧ (submit st name (FieldInput.intVal w) (FieldInput.intVal q)).loads
          = st.loads ++
            [⟨st.load_id, (if name = "" then "New Load" else name), w, q⟩]
      ∧ (submit st name FieldInput.empty (FieldInput.intVal q)).loads
          = st.loads ++
            [⟨st.load_id, (if name = "" then "New Load" else name), 0, q⟩]
      ∧ (submit st name (FieldInput.intVal w) FieldInput.empty).loads
          = st.loads ++
            [⟨st.load_id, (if name = "" then "New Load" else name), w, 1⟩] := by
  intro st name inp w q
  refine ⟨?_, ?_, rfl, rfl, rfl⟩
  · cases inp <;> rfl
  · cases inp <;> rfl

/-- Counterexample to C5: a whitespace-only project name (a single
space) is non-empty, hence truthy in Python, so the payload keeps it
verbatim instead of substituting the placeholder. -/
theorem c5_whitespace_name_counterexample :
    payloadProjectName " " = " "
    ∧ payloadProjectName " " ≠ "Untitled Project"
    ∧ (" ").data.all Char.isWhitespace = true :=
  ⟨rfl, by decide, by decide⟩

/-- C5 amended: the placeholder "Untitled Project" is substituted exactly
when the entered project name is the empty string; every non-empty name —
whitespace-only names included — is preserved verbatim in the assembled
payload, and the substitution is a pure function of the entered name (the
caller-held metadata is never mutated). -/
theorem c5_placeholder_only_for_empty_name :
    ∀ entered : String,
      (entered = "" → payloadProjectName entered = "Untitled Project")
      ∧ (entered ≠ "" → payloadProjectName entered = entered) := by
  intro entered
  constructor
  · intro h
    subst h
    rfl
  · intro h
    unfold payloadProjectName
    rw [if_neg h]

/-- Witness for C5 amended: the empty name maps to the placeholder and a
non-empty name is preserved. -/
theorem c5_placeholder_only_for_empty_name_witness :
    payloadProjectName "" = "Untitled Project"
    ∧ payloadProjectName "Clinic A" = "Clinic A" :=
  ⟨(c5_placeholder_only_for_empty_name "").1 rfl,
   (c5_placeholder_only_for_empty_name "Clinic A").2 (by decide)⟩

/-- C6: adding "Test" with 1000 W and quantity 2 raises the aggregate by
exactly 2000; removing that entry by its id restores the prior aggregate
(when no existing entry already carries the fresh id, as in every
reachable ledger); and removing an absent id is a no-op that leaves the
ledger unchanged. -/
theorem c6_add_remove_aggregate :
    ∀ st : LedgerState,
      aggregateWatts (submit st "Test"
          (FieldInput.intVal 1000) (FieldInput.intVal 2)).loads
        = aggregateWatts st.loads + 2000
      ∧ ((∀ l ∈ st.loads, l.id ≠ st.load_id) →
          aggregateWatts (removeLoad (submit st "Test"
              (FieldInput.intVal 1000) (FieldInput.intVal 2)) st.load_id).loads
            = aggregateWatts st.loads)
      ∧ (∀ lid : ℤ, (∀ l ∈ st.loads, l.id ≠ lid) → removeLoad st lid = st) := by
  intro st
  refine ⟨?_, ?_, ?_⟩
  · rw [submit_intVal]
    unfold aggregateWatts
    dsimp only
    rw [List.map_append, List.sum_append]
    norm_num
  · intro h
    rw [submit_intVal]
    unfold removeLoad
    dsimp only
    rw [List.filter_append]
    have h2 : (([⟨st.load_id, (if ("Test" : String) = "" then "New Load" else "Test"),
        1000, 2⟩] : List Load).filter (fun l => l.id ≠ st.load_id)) = [] := by
      simp [List.filter]
    rw [filter_ne_id_eq_self st.loads st.load_id h, h2, List.append_nil]
  · intro lid h
    unfold removeLoad
    rw [filter_ne_id_eq_self st.loads lid h]

/-- Witness for C6: on the default seed, the add raises the aggregate
from 20000 to 22000, removing the fresh id 4 restores 20000, and removing
the absent id 99 leaves the ledger unchanged. -/
theorem c6_add_remove_aggregate_witness :
    aggregateWatts (submit initState "Test"
        (FieldInput.intVal 1000) (FieldInput.intVal 2)).loads
      = aggregateWatts initState.loads + 2000
    ∧ aggregateWatts (removeLoad (submit initState "Test"
        (FieldInput.intVal 1000) (FieldInput.intVal 2)) initState.load_id).loads
      = aggregateWatts initState.loads
    ∧ removeLoad initState 99 = initState := by
  obtain ⟨h1, h2, h3⟩ := c6_add_remove_aggregate initState
  exact ⟨h1, h2 (by decide), h3 99 (by decide)⟩

/-- C7: in every ledger state reachable from the three-entry default
seed, ids are pairwise distinct, positive and strictly below the
monotonically non-decreasing counter (so a removed id is never reused); a
successful add appends its entry at the end and assigns the counter value
as its id while incrementing the counter. -/
theorem c7_ledger_id_invariants :
    ∀ st : LedgerState, ReachableLedger st →
      ((st.loads.map Load.id).Nodup
       ∧ (∀ l ∈ st.loads, 0 < l.id ∧ l.id < st.load_id))
      ∧ (∀ (name : String) (w q : ℤ),
          submit st name (FieldInput.intVal w) (FieldInput.intVal q)
            = ⟨st.loads ++
                [⟨st.load_id, (if name = "" then "New Load" else name), w, q⟩],
               st.load_id + 1⟩)
      ∧ (∀ st' : LedgerState, LedgerStep st st' → st.load_id ≤ st'.load_id) := by
  intro st h
  obtain ⟨hpos, hnd, hbound⟩ := reachable_ledgerInv h
  exact ⟨⟨hnd, hbound⟩, fun name w q => submit_intVal st name w q,
         fun st' hs => ledgerStep_load_id_mono hs⟩

/-- Witness for C7: the initial ledger is reachable and its ids 1, 2, 3
are pairwise distinct. -/
theorem c7_ledger_id_invariants_witness :
    (initState.loads.map Load.id).Nodup :=
  (c7_ledger_id_invariants initState ReachableLedger.init).1.1

/-- C8: when the PDF renderer reports failure, the save flow returns
before touching the record store — no record is persisted, so no stored
record can reference a failed render. -/
theorem c8_render_failure_no_persist :
    ∀ (ctx : SaveCtx)
      (reportId timestamp nowIso checklistJson loadJson reportsDir : String),
      saveReport ctx reportId timestamp nowIso checklistJson loadJson
        reportsDir false = none := by
  intro ctx reportId timestamp nowIso checklistJson loadJson reportsDir
  rcases hc : ctx.current_specs with _ | sp <;> simp [saveReport, hc]

/-- C9: the artifact filename is
sanitized-name_phase_powerkW_timestamp.pdf, where the sanitizer keeps
only alphanumerics, spaces, hyphens and underscores, strips, truncates to
at most 40 characters, and only then substitutes spaces with underscores;
consequently the name component is at most 40 characters long and
contains only alphanumerics, hyphens and underscores. -/
theorem c9_artifact_filename_form :
    ∀ (projectName timestamp : String) (phase : PhaseType) (power : ℤ),
      reportFilename projectName phase power timestamp
        = String.mk (((stripSpaces (projectName.data.filter keepChar)).take 40).map
              spaceToUnderscore)
            ++ "_" ++ phase.key ++ "_" ++ toString power ++ "kW_"
            ++ timestamp ++ ".pdf"
      ∧ (sanitizeName projectName).length ≤ 40
      ∧ (∀ c ∈ sanitizeName projectName,
          c.isAlphanum = true ∨ c = '-' ∨ c = '_') := by
  intro projectName timestamp phase power
  refine ⟨rfl, ?_, ?_⟩
  · unfold sanitizeName
    rw [List.length_map, List.length_take]
    exact min_le_left _ _
  · intro c hc
    unfold sanitizeName at hc
    obtain ⟨c0, hc0, rfl⟩ := List.mem_map.mp hc
    have hsub : List.Sublist ((stripSpaces (projectName.data.filter keepChar)).take 40)
        (projectName.data.filter keepChar) :=
      (List.take_sublist _ _).trans (stripSpaces_sublist _)
    have hmem : c0 ∈ projectName.data.filter keepChar := hsub.subset hc0
    have hkeep : keepChar c0 = true := List.of_mem_filter hmem
    unfold spaceToUnderscore
    by_cases hsp : c0 = ' '
    · rw [if_pos hsp]
      exact Or.inr (Or.inr rfl)
    · rw [if_neg hsp]
      unfold keepChar at hkeep
      simp only [Bool.or_eq_true, decide_eq_true_eq] at hkeep
      rcases hkeep with ((ha | hspace) | hh) | hu
      · exact Or.inl ha
      · exact absurd hspace hsp
      · exact Or.inr (Or.inl hh)
      · exact Or.inr (Or.inr hu)

/-- C10: every record the save flow hands to the record store has status
"completed" — the schema default "draft" is never written by any code
path of the program. -/
theorem c10_persisted_status_completed :
    ∀ (ctx : SaveCtx)
      (reportId timestamp nowIso checklistJson loadJson reportsDir : String)
      (renderOk : Bool) (r : SavedReport),
      saveReport ctx reportId timestamp nowIso checklistJson loadJson
          reportsDir renderOk = some r →
        r.status = "completed" ∧ r.status ≠ schemaDefaultStatus := by
  intro ctx reportId timestamp nowIso checklistJson loadJson reportsDir renderOk r h
  rcases hc : ctx.current_specs with _ | sp
  · simp only [saveReport, hc] at h
    exact absurd h (by simp)
  · cases renderOk
    · simp only [saveReport, hc, if_neg] at h
      exact absurd h (by simp)
    · simp only [saveReport, hc, if_pos, Option.some.injEq] at h
      subst h
      refine ⟨rfl, ?_⟩
      show ("completed" : String) ≠ schemaDefaultStatus
      decide

/-- Witness for C10: running the save flow on a concrete context with a
successful render persists a record whose status is "completed". -/
theorem c10_persisted_status_completed_witness :
    (⟨"rid", "Clinic", "single", 30, "completed", "iso", "iso", "", "", "", "", "",
       "cj", "lj", "dir" ++ "/" ++ "Clinic_single_30kW_ts.pdf"⟩ :
       SavedReport).status = "completed"
    ∧ (⟨"rid", "Clinic", "single", 30, "completed", "iso", "iso", "", "", "", "", "",
       "cj", "lj", "dir" ++ "/" ++ "Clinic_single_30kW_ts.pdf"⟩ :
       SavedReport).status ≠ schemaDefaultStatus := by
  have h := c10_persisted_status_completed sampleCtx "rid" "ts" "iso" "cj" "lj" "dir" true
    (⟨"rid", "Clinic", "single", 30, "completed", "iso", "iso", "", "", "", "", "",
      "cj", "lj", "dir" ++ "/" ++ "Clinic_single_30kW_ts.pdf"⟩ : SavedReport)
    (by decide)
  exact h

end GeneratorSpecs
